import Mathlib

/-!
# Verification of the signal-derivation pipeline of `enhanced_trading_modes.py`

Shallow embedding of the core of the repository: the Level Calculator
(`_calculate_atr_levels`), the Signal Parser (`_parse_signal`,
`_extract_levels`, `_parse_setup_signal_with_explanation`), the
confluence-gated fallbacks (`_fallback_signal`, `_fallback_swing_setup`)
and the multi-timeframe fallback (`_fallback_multi_timeframe_signal`).

Python floats are modelled as exact rationals (ℚ); `round(x, d)` is
modelled as rounding `x * 10^d` to the nearest integer and dividing back.
(Python uses round-half-to-even on binary floats; every lemma below either
avoids half-way cases at concrete inputs or uses only monotonicity of the
rounding, which holds for either tie-breaking rule.)  Strings are Lean
`String`s; `str.upper()` is an ASCII uppercase map, `in` is substring
containment, and the regex `\d+\.?\d*` of `_extract_levels` is embedded as
an explicit left-to-right maximal-munch scanner.
-/

namespace Trading

/-- Trade action, the `action` field of a signal dict. -/
inductive Action where
  | BUY | SELL | BUY_SETUP | SELL_SETUP | WAIT
deriving DecidableEq, Repr

/-- Trading-mode kind: the `type` field of the mode config
(`scalping` / `instant` / `setup` / `multi`). -/
inductive ModeType where
  | scalping | instant | setup | multi
deriving DecidableEq, Repr

/-- A trading-mode record: the fields of `_get_mode_config` the core reads.
In the source `confluence_threshold` is present only on the `setup` entry
and is read only on the `mode_type == 'setup'` path. -/
structure Mode where
  tp_atr_multiple : ℚ
  sl_atr_multiple : ℚ
  confluence_threshold : ℚ
deriving DecidableEq, Repr

/-- Mode config entry `'1'` (15-Min Scalping Mode).  The threshold field is
absent in the source dict and never read on scalping paths. -/
def scalpingMode : Mode := ⟨3/2, 1, 0⟩

/-- Mode config entry `'2'` (Instant Entry Mode). -/
def instantMode : Mode := ⟨5/2, 6/5, 0⟩

/-- Mode config entry `'3'` (Entry Setup Mode), `confluence_threshold: 2.0`. -/
def setupMode : Mode := ⟨5/2, 6/5, 2⟩

/-- `round(x, d)` of Python on our rational model: round `x·10^d` to the
nearest integer, divide back. -/
def roundTo (d : ℕ) (x : ℚ) : ℚ := (round (x * 10 ^ d) : ℤ) / 10 ^ d

/-- The `levels` dict returned by `_calculate_atr_levels` /
`_extract_levels`: always all three keys. -/
structure Levels where
  entry : ℚ
  tp : ℚ
  sl : ℚ
deriving DecidableEq, Repr

/-- `_calculate_atr_levels(action, mode_type)`: TP/SL from ATR multiples of
the selected mode, each `round`ed to the asset's `price_decimals`.
Reads `self.current_price` and `self.atr_value`, here explicit arguments.
The branch test is `action in ['BUY', 'BUY_SETUP']`; the `else` covers
everything else (callers pass only `'BUY'` or `'SELL'`). -/
def calculateAtrLevels (action : Action) (currentPrice atr : ℚ) (mode : Mode)
    (decimals : ℕ) : Levels :=
  if action = .BUY ∨ action = .BUY_SETUP then
    { entry := roundTo decimals currentPrice
      tp := roundTo decimals (currentPrice + atr * mode.tp_atr_multiple)
      sl := roundTo decimals (currentPrice - atr * mode.sl_atr_multiple) }
  else
    { entry := roundTo decimals currentPrice
      tp := roundTo decimals (currentPrice - atr * mode.tp_atr_multiple)
      sl := roundTo decimals (currentPrice + atr * mode.sl_atr_multiple) }

/-! ## The numeric scanner of `_extract_levels`

`re.findall(r'\d+\.?\d*', response)`: left-to-right, maximal munch, each
match is one or more digits, an optional dot, then zero or more digits. -/

/-- One maximal match of `\d+\.?\d*` starting at a digit: the digit run,
an optional `'.'`, a further digit run; returns the match and the rest. -/
def munchNumber (l : List Char) : List Char × List Char :=
  match l.dropWhile Char.isDigit with
  | '.' :: r2 => (l.takeWhile Char.isDigit ++ '.' :: r2.takeWhile Char.isDigit,
                  r2.dropWhile Char.isDigit)
  | r1 => (l.takeWhile Char.isDigit, r1)

theorem munchNumber_snd_length (c : Char) (cs : List Char) (hc : c.isDigit = true) :
    (munchNumber (c :: cs)).2.length < (c :: cs).length := by
  have h1 : ((c :: cs).dropWhile Char.isDigit).length ≤ cs.length := by
    simp only [List.dropWhile, hc]
    exact (List.dropWhile_sublist Char.isDigit).length_le
  unfold munchNumber
  split
  case _ r2 heq =>
    have h2 : ('.' :: r2).length ≤ cs.length := heq ▸ h1
    have h3 : (r2.dropWhile Char.isDigit).length ≤ r2.length :=
      (List.dropWhile_sublist _).length_le
    simp only [List.length_cons] at h2 ⊢
    omega
  case _ =>
    exact Nat.lt_of_le_of_lt h1 (Nat.lt_succ_self _)

/-- Scanner loop, structural on a fuel bound so that concrete runs reduce
in the kernel; each step consumes at least one character
(`munchNumber_snd_length`), so fuel `l.length` never runs out. -/
def scanNumbersAux : ℕ → List Char → List String
  | 0, _ => []
  | _, [] => []
  | fuel + 1, c :: cs =>
    if c.isDigit then
      String.mk (munchNumber (c :: cs)).1 :: scanNumbersAux fuel (munchNumber (c :: cs)).2
    else
      scanNumbersAux fuel cs

/-- `re.findall(r'\d+\.?\d*', ·)` over a character list: skip to the next
digit, take one maximal match, continue after it. -/
def scanNumbers (l : List Char) : List String := scanNumbersAux l.length l

/-- `float(s)` on a matched token: digits, optional dot, digits. -/
def digitsVal (l : List Char) : ℕ :=
  l.foldl (fun n c => 10 * n + (c.toNat - '0'.toNat)) 0

/-- The digits after the `'.'` of a matched token (empty when absent). -/
def fracPart (l : List Char) : List Char :=
  match l.dropWhile (fun c => c ≠ '.') with
  | _ :: t => t
  | [] => []

/-- Numeric value of one regex match (at most one `'.'`). -/
def parseDec (s : String) : ℚ :=
  (digitsVal (s.toList.takeWhile (fun c => c ≠ '.')) : ℚ) +
    (digitsVal (fracPart s.toList) : ℚ) / 10 ^ (fracPart s.toList).length

/-- `_extract_levels(response, action, mode_type)`: find all numbers; if at
least three, assign the first three positionally to entry/tp/sl rounded to
the asset's decimals; otherwise fall back to `_calculate_atr_levels`.
(The `except` arm repeats the ATR fallback; in this model extraction cannot
fail, so it is unreachable.) -/
def extractLevels (response : List Char) (action : Action)
    (currentPrice atr : ℚ) (mode : Mode) (decimals : ℕ) : Levels :=
  match scanNumbers response with
  | n0 :: n1 :: n2 :: _ =>
      { entry := roundTo decimals (parseDec n0)
        tp := roundTo decimals (parseDec n1)
        sl := roundTo decimals (parseDec n2) }
  | _ => calculateAtrLevels action currentPrice atr mode decimals

/-! ## String operations of the parser -/

/-- Python `str.upper()` (the responses handled are ASCII). -/
def upperChars (l : List Char) : List Char := l.map Char.toUpper

/-- Python `str.strip()`: drop whitespace from both ends. -/
def stripChars (l : List Char) : List Char :=
  ((l.dropWhile Char.isWhitespace).reverse.dropWhile Char.isWhitespace).reverse

/-- Python `needle in hay` on strings: substring containment. -/
def containsSub (hay needle : List Char) : Bool :=
  hay.tails.any (fun t => needle.isPrefixOf t)

/-- Index of the first occurrence of `needle` in `hay`, if any. -/
def firstSubIdx (hay needle : List Char) : Option ℕ :=
  (List.range (hay.length + 1)).find? (fun i => needle.isPrefixOf (hay.drop i))

/-- Python `s.split(marker)[0]`: the text before the first occurrence of
the marker (all of `s` when the marker is absent). -/
def beforeMarker (hay marker : List Char) : List Char :=
  match firstSubIdx hay marker with
  | some i => hay.take i
  | none => hay

/-- The signal dict produced by the parser and the fallbacks.  The
timestamp, asset-name and mode fields and the optional
`reason`/`ict_explanation`/`multi_tf_data` entries carry no verified
content and are omitted. -/
structure Signal where
  current_price : ℚ
  action : Action
  entry : Option ℚ
  tp : Option ℚ
  sl : Option ℚ
  confidence : String
  raw_signal : String
deriving DecidableEq, Repr

/-- `_parse_signal(ai_response, mode_type)`: start from a WAIT signal with
null levels; uppercase and strip the response; for setup mode detect
`'BUY WHEN'` / `'SELL WHEN'` (in that order), otherwise detect `'BUY'` /
`'SELL'` (in that order); on a hit, set the action and merge the dict
returned by `_extract_levels`. -/
def parseSignal (aiResponse : String) (modeType : ModeType) (mode : Mode)
    (currentPrice atr : ℚ) (decimals : ℕ) : Signal :=
  let base : Signal :=
    { current_price := currentPrice, action := .WAIT,
      entry := none, tp := none, sl := none,
      confidence := "AI", raw_signal := String.mk (stripChars aiResponse.toList) }
  let response := stripChars (upperChars aiResponse.toList)
  if modeType = .setup then
    if containsSub response "BUY WHEN".toList then
      let lv := extractLevels response .BUY currentPrice atr mode decimals
      { base with action := .BUY_SETUP,
                  entry := some lv.entry, tp := some lv.tp, sl := some lv.sl }
    else if containsSub response "SELL WHEN".toList then
      let lv := extractLevels response .SELL currentPrice atr mode decimals
      { base with action := .SELL_SETUP,
                  entry := some lv.entry, tp := some lv.tp, sl := some lv.sl }
    else base
  else
    if containsSub response "BUY".toList then
      let lv := extractLevels response .BUY currentPrice atr mode decimals
      { base with action := .BUY,
                  entry := some lv.entry, tp := some lv.tp, sl := some lv.sl }
    else if containsSub response "SELL".toList then
      let lv := extractLevels response .SELL currentPrice atr mode decimals
      { base with action := .SELL,
                  entry := some lv.entry, tp := some lv.tp, sl := some lv.sl }
    else base

/-- The `signal_part` of `_parse_setup_signal_with_explanation`: the
stripped response, cut before the first `'DETAILED_ICT_EXPLANATION:'`
marker when one is present. -/
def setupSignalPart (aiResponse : String) : List Char :=
  let response := stripChars aiResponse.toList
  if containsSub response "DETAILED_ICT_EXPLANATION:".toList then
    stripChars (beforeMarker response "DETAILED_ICT_EXPLANATION:".toList)
  else response

/-- `_parse_setup_signal_with_explanation(ai_response)`: strip; split off an
explanation block at the first `'DETAILED_ICT_EXPLANATION:'`; classify the
head (uppercased, stripped) by `'BUY WHEN'` / `'SELL WHEN'`; levels are
extracted from the original-case head.  The stored explanation tail is not
modelled. -/
def parseSetupSignalWithExplanation (aiResponse : String) (mode : Mode)
    (currentPrice atr : ℚ) (decimals : ℕ) : Signal :=
  let base : Signal :=
    { current_price := currentPrice, action := .WAIT,
      entry := none, tp := none, sl := none,
      confidence := "AI", raw_signal := String.mk (stripChars aiResponse.toList) }
  let signalPart := setupSignalPart aiResponse
  let responseUpper := stripChars (upperChars signalPart)
  if containsSub responseUpper "BUY WHEN".toList then
    let lv := extractLevels signalPart .BUY currentPrice atr mode decimals
    { base with action := .BUY_SETUP,
                entry := some lv.entry, tp := some lv.tp, sl := some lv.sl }
  else if containsSub responseUpper "SELL WHEN".toList then
    let lv := extractLevels signalPart .SELL currentPrice atr mode decimals
    { base with action := .SELL_SETUP,
                entry := some lv.entry, tp := some lv.tp, sl := some lv.sl }
  else base

/-- `_fallback_signal(long_conf, short_conf, mode_type)`.  The base dict
sets `action: 'WAIT'` but `entry: self.current_price` (not `None`).  Setup
mode first gates on the mode's `confluence_threshold`; then a side wins
when it strictly exceeds the other and reaches 1.5. -/
def fallbackSignal (longConf shortConf : ℚ) (modeType : ModeType) (mode : Mode)
    (currentPrice atr : ℚ) (decimals : ℕ) : Signal :=
  let base : Signal :=
    { current_price := currentPrice, action := .WAIT,
      entry := some currentPrice, tp := none, sl := none,
      confidence := "ICT", raw_signal := "Fallback analysis" }
  let decided : Signal :=
    if longConf > shortConf ∧ longConf ≥ 3/2 then
      let a : Action := if modeType = .setup then .BUY_SETUP else .BUY
      let lv := calculateAtrLevels .BUY currentPrice atr mode decimals
      { base with action := a,
                  entry := some lv.entry, tp := some lv.tp, sl := some lv.sl }
    else if shortConf > longConf ∧ shortConf ≥ 3/2 then
      let a : Action := if modeType = .setup then .SELL_SETUP else .SELL
      let lv := calculateAtrLevels .SELL currentPrice atr mode decimals
      { base with action := a,
                  entry := some lv.entry, tp := some lv.tp, sl := some lv.sl }
    else base
  if modeType = .setup ∧ max longConf shortConf < mode.confluence_threshold then
    base  -- early return (the source also records a 'reason' string)
  else decided

/-- `_fallback_pine_signal(long_signals, short_signals, mode_type)`: same
shape as `_fallback_signal` with integer signal counts, a hard-coded setup
threshold of 2 and a win condition of strict majority with at least 2. -/
def fallbackPineSignal (longSignals shortSignals : ℕ) (modeType : ModeType)
    (mode : Mode) (currentPrice atr : ℚ) (decimals : ℕ) : Signal :=
  let base : Signal :=
    { current_price := currentPrice, action := .WAIT,
      entry := some currentPrice, tp := none, sl := none,
      confidence := "Pine Script ICT", raw_signal := "" }
  let decided : Signal :=
    if longSignals > shortSignals ∧ longSignals ≥ 2 then
      let a : Action := if modeType = .setup then .BUY_SETUP else .BUY
      let lv := calculateAtrLevels .BUY currentPrice atr mode decimals
      { base with action := a,
                  entry := some lv.entry, tp := some lv.tp, sl := some lv.sl }
    else if shortSignals > longSignals ∧ shortSignals ≥ 2 then
      let a : Action := if modeType = .setup then .SELL_SETUP else .SELL
      let lv := calculateAtrLevels .SELL currentPrice atr mode decimals
      { base with action := a,
                  entry := some lv.entry, tp := some lv.tp, sl := some lv.sl }
    else base
  if modeType = .setup ∧ max longSignals shortSignals < 2 then
    base  -- early return (the source also records a 'reason' string)
  else decided

/-- `_fallback_swing_setup(setup_data)`: pip buffer in price units is
`pip_buffer * pip_value`.  In each armed branch the source first assigns
`signal['entry'] = round(swing ± buffer)` and then runs
`signal.update(self._calculate_atr_levels(...))`, whose `entry` key
overwrites the swing-based trigger; the model reproduces that overwrite. -/
def fallbackSwingSetup (swingHigh swingLow : ℚ) (marketStructure : ℤ)
    (currentPrice atr : ℚ) (mode : Mode) (decimals : ℕ)
    (pipBuffer pipValue : ℚ) : Signal :=
  let buf := pipBuffer * pipValue
  let base : Signal :=
    { current_price := currentPrice, action := .WAIT,
      entry := some currentPrice, tp := none, sl := none,
      confidence := "Pine Script ICT", raw_signal := "" }
  if marketStructure = 1 ∧ currentPrice < swingLow + buf then
    let s1 := { base with action := Action.BUY_SETUP,
                          entry := some (roundTo decimals (swingLow + buf)) }
    let lv := calculateAtrLevels .BUY currentPrice atr mode decimals
    { s1 with entry := some lv.entry, tp := some lv.tp, sl := some lv.sl }
  else if marketStructure = -1 ∧ currentPrice > swingHigh - buf then
    let s1 := { base with action := Action.SELL_SETUP,
                          entry := some (roundTo decimals (swingHigh - buf)) }
    let lv := calculateAtrLevels .SELL currentPrice atr mode decimals
    { s1 with entry := some lv.entry, tp := some lv.tp, sl := some lv.sl }
  else base

/-! ## Multi-timeframe fallback (`_fallback_multi_timeframe_signal`) -/

/-- Python `str.lower()` on the ASCII tag strings. -/
def lowerChars (s : String) : List Char := s.toList.map Char.toLower

/-- The confluence accumulation of `_fallback_multi_timeframe_signal`:
daily bias, 4H structure and 1H trend each add 1.0 to their side, 1H
momentum adds 0.5; returns `(long_confluence, short_confluence)`. -/
def multiConfluence (dailyBias : String) (h4Structure : ℤ)
    (h1Trend h1Momentum : String) : ℚ × ℚ :=
  let a : ℚ × ℚ :=
    if lowerChars dailyBias = "bullish".toList then (1, 0)
    else if lowerChars dailyBias = "bearish".toList then (0, 1)
    else (0, 0)
  let b : ℚ × ℚ :=
    if h4Structure = 1 then (1, 0)
    else if h4Structure = -1 then (0, 1)
    else (0, 0)
  let c : ℚ × ℚ :=
    if lowerChars h1Trend = "bullish".toList then (1, 0)
    else if lowerChars h1Trend = "bearish".toList then (0, 1)
    else (0, 0)
  let d : ℚ × ℚ :=
    if lowerChars h1Momentum = "bullish".toList then (1/2, 0)
    else if lowerChars h1Momentum = "bearish".toList then (0, 1/2)
    else (0, 0)
  (a.1 + b.1 + c.1 + d.1, a.2 + b.2 + c.2 + d.2)

/-- `_fallback_multi_timeframe_signal(analysis)`: compute the two
confluence scores, pick the nearest 4H support below / resistance above
the current price (via `sorted(...)` and end access, i.e. max / min of the
filtered lists) with 2×ATR defaults, and always emit a BUY_SETUP on
`long_confluence >= short_confluence`, else a SELL_SETUP.  The source
initialises `'action': None`, overwritten on both branches; the
placeholder here is WAIT, equally unobservable. -/
def fallbackMultiTimeframeSignal (dailyBias : String) (h4Structure : ℤ)
    (h4Support h4Resistance : List ℚ) (h1Trend h1Momentum : String)
    (currentPrice atr : ℚ) (decimals : ℕ) : Signal :=
  let base : Signal :=
    { current_price := currentPrice, action := .WAIT,
      entry := some currentPrice, tp := none, sl := none,
      confidence := "Multi-TF ICT", raw_signal := "Multi-timeframe fallback analysis" }
  let conf := multiConfluence dailyBias h4Structure h1Trend h1Momentum
  let supportLevels :=
    (h4Support.filter (fun level => level < currentPrice)).mergeSort
      (fun a b => decide (a ≤ b))
  let resistanceLevels :=
    (h4Resistance.filter (fun level => level > currentPrice)).mergeSort
      (fun a b => decide (a ≤ b))
  let nearestSupport := supportLevels.getLast?.getD (currentPrice - atr * 2)
  let nearestResistance := resistanceLevels.head?.getD (currentPrice + atr * 2)
  if conf.1 ≥ conf.2 then
    let entryPrice := nearestSupport + atr * (1/5)
    let slPrice := nearestSupport - atr * 1
    let tpPrice :=
      if resistanceLevels ≠ [] then nearestResistance
      else entryPrice + atr * (5/2)
    { base with action := .BUY_SETUP,
                entry := some (roundTo decimals entryPrice),
                sl := some (roundTo decimals slPrice),
                tp := some (roundTo decimals tpPrice) }
  else
    let entryPrice := nearestResistance - atr * (1/5)
    let slPrice := nearestResistance + atr * 1
    let tpPrice :=
      if supportLevels ≠ [] then nearestSupport
      else entryPrice - atr * (5/2)
    { base with action := .SELL_SETUP,
                entry := some (roundTo decimals entryPrice),
                sl := some (roundTo decimals slPrice),
                tp := some (roundTo decimals tpPrice) }

/-- Modelled from the spec (§4.3 step 1) for comparison with the code:
"detect first occurrence of BUY → BUY, else SELL → SELL, else WAIT (no
attempt to disambiguate a reply containing both words except by first
occurrence)". -/
def firstOccurrenceAction (text : String) : Action :=
  let u := stripChars (upperChars text.toList)
  match firstSubIdx u "BUY".toList, firstSubIdx u "SELL".toList with
  | some b, some s => if b < s then .BUY else .SELL
  | some _, none => .BUY
  | none, some _ => .SELL
  | none, none => .WAIT

/-! ## Helper lemmas -/

theorem roundTo_eval (d : ℕ) (x : ℚ) (n : ℤ)
    (h1 : (n : ℚ) ≤ x * 10 ^ d + 1/2) (h2 : x * 10 ^ d + 1/2 < n + 1) :
    roundTo d x = (n : ℚ) / 10 ^ d := by
  unfold roundTo
  rw [round_eq]
  congr 2
  exact Int.floor_eq_iff.mpr ⟨h1, by exact_mod_cast h2⟩

theorem roundTo_mono (d : ℕ) {x y : ℚ} (h : x ≤ y) : roundTo d x ≤ roundTo d y := by
  unfold roundTo
  have h10 : (0:ℚ) < 10 ^ d := by positivity
  have hxy : x * 10 ^ d ≤ y * 10 ^ d := by
    exact mul_le_mul_of_nonneg_right h h10.le
  have hr : (round (x * 10 ^ d) : ℤ) ≤ round (y * 10 ^ d) := by
    rw [round_eq, round_eq]
    exact Int.floor_mono (by linarith)
  have hrq : ((round (x * 10 ^ d) : ℤ) : ℚ) ≤ ((round (y * 10 ^ d) : ℤ) : ℚ) := by
    exact_mod_cast hr
  exact div_le_div_of_nonneg_right hrq h10.le

theorem calculateAtrLevels_long (a : Action) (p atr : ℚ) (mode : Mode) (d : ℕ)
    (ha : a = .BUY ∨ a = .BUY_SETUP) :
    calculateAtrLevels a p atr mode d =
      { entry := roundTo d p,
        tp := roundTo d (p + atr * mode.tp_atr_multiple),
        sl := roundTo d (p - atr * mode.sl_atr_multiple) } := by
  unfold calculateAtrLevels
  rw [if_pos ha]

theorem calculateAtrLevels_short (a : Action) (p atr : ℚ) (mode : Mode) (d : ℕ)
    (ha : a = .SELL ∨ a = .SELL_SETUP) :
    calculateAtrLevels a p atr mode d =
      { entry := roundTo d p,
        tp := roundTo d (p - atr * mode.tp_atr_multiple),
        sl := roundTo d (p + atr * mode.sl_atr_multiple) } := by
  unfold calculateAtrLevels
  rcases ha with h | h <;> subst h <;> rw [if_neg (by simp)]

theorem atrLevels_long_weak (p atr : ℚ) (mode : Mode) (d : ℕ)
    (htp : 0 ≤ atr * mode.tp_atr_multiple) (hsl : 0 ≤ atr * mode.sl_atr_multiple) :
    (calculateAtrLevels .BUY p atr mode d).sl ≤ (calculateAtrLevels .BUY p atr mode d).entry ∧
    (calculateAtrLevels .BUY p atr mode d).entry ≤ (calculateAtrLevels .BUY p atr mode d).tp := by
  rw [calculateAtrLevels_long .BUY p atr mode d (Or.inl rfl)]
  exact ⟨roundTo_mono d (by linarith), roundTo_mono d (by linarith)⟩

theorem atrLevels_short_weak (p atr : ℚ) (mode : Mode) (d : ℕ)
    (htp : 0 ≤ atr * mode.tp_atr_multiple) (hsl : 0 ≤ atr * mode.sl_atr_multiple) :
    (calculateAtrLevels .SELL p atr mode d).tp ≤ (calculateAtrLevels .SELL p atr mode d).entry ∧
    (calculateAtrLevels .SELL p atr mode d).entry ≤ (calculateAtrLevels .SELL p atr mode d).sl := by
  rw [calculateAtrLevels_short .SELL p atr mode d (Or.inl rfl)]
  exact ⟨roundTo_mono d (by linarith), roundTo_mono d (by linarith)⟩

theorem extractLevels_of_few (resp : List Char) (a : Action) (p atr : ℚ)
    (mode : Mode) (d : ℕ) (hn : (scanNumbers resp).length < 3) :
    extractLevels resp a p atr mode d = calculateAtrLevels a p atr mode d := by
  unfold extractLevels
  rcases h : scanNumbers resp with _ | ⟨n0, _ | ⟨n1, _ | ⟨n2, t⟩⟩⟩
  · rfl
  · rfl
  · rfl
  · rw [h] at hn
    simp at hn
    omega

theorem extractLevels_of_three (resp : List Char) (a : Action) (p atr : ℚ)
    (mode : Mode) (d : ℕ) (n0 n1 n2 : String) (rest : List String)
    (h : scanNumbers resp = n0 :: n1 :: n2 :: rest) :
    extractLevels resp a p atr mode d =
      { entry := roundTo d (parseDec n0),
        tp := roundTo d (parseDec n1),
        sl := roundTo d (parseDec n2) } := by
  unfold extractLevels
  rw [h]

theorem parseDec_eval (s : String) (a b k : ℕ)
    (ha : digitsVal (s.toList.takeWhile (fun c => c ≠ '.')) = a)
    (hb : digitsVal (fracPart s.toList) = b)
    (hk : (fracPart s.toList).length = k) :
    parseDec s = (a : ℚ) + (b : ℚ) / 10 ^ k := by
  unfold parseDec
  rw [ha, hb, hk]

theorem parseSignal_nonsetup_buy (text : String) (mt : ModeType) (mode : Mode)
    (p atr : ℚ) (d : ℕ) (hmt : ¬ mt = ModeType.setup)
    (hb : containsSub (stripChars (upperChars text.toList)) "BUY".toList = true) :
    parseSignal text mt mode p atr d =
      { current_price := p, action := .BUY,
        entry := some (extractLevels (stripChars (upperChars text.toList)) .BUY p atr mode d).entry,
        tp := some (extractLevels (stripChars (upperChars text.toList)) .BUY p atr mode d).tp,
        sl := some (extractLevels (stripChars (upperChars text.toList)) .BUY p atr mode d).sl,
        confidence := "AI", raw_signal := String.mk (stripChars text.toList) } := by
  simp only [parseSignal]
  rw [if_neg hmt, if_pos hb]

theorem parseSignal_nonsetup_sell (text : String) (mt : ModeType) (mode : Mode)
    (p atr : ℚ) (d : ℕ) (hmt : ¬ mt = ModeType.setup)
    (hnb : containsSub (stripChars (upperChars text.toList)) "BUY".toList = false)
    (hs : containsSub (stripChars (upperChars text.toList)) "SELL".toList = true) :
    parseSignal text mt mode p atr d =
      { current_price := p, action := .SELL,
        entry := some (extractLevels (stripChars (upperChars text.toList)) .SELL p atr mode d).entry,
        tp := some (extractLevels (stripChars (upperChars text.toList)) .SELL p atr mode d).tp,
        sl := some (extractLevels (stripChars (upperChars text.toList)) .SELL p atr mode d).sl,
        confidence := "AI", raw_signal := String.mk (stripChars text.toList) } := by
  simp only [parseSignal]
  rw [if_neg hmt, if_neg (by rw [hnb]; exact Bool.false_ne_true), if_pos hs]

theorem parseSignal_nonsetup_wait (text : String) (mt : ModeType) (mode : Mode)
    (p atr : ℚ) (d : ℕ) (hmt : ¬ mt = ModeType.setup)
    (hnb : containsSub (stripChars (upperChars text.toList)) "BUY".toList = false)
    (hns : containsSub (stripChars (upperChars text.toList)) "SELL".toList = false) :
    parseSignal text mt mode p atr d =
      { current_price := p, action := .WAIT,
        entry := none, tp := none, sl := none,
        confidence := "AI", raw_signal := String.mk (stripChars text.toList) } := by
  simp only [parseSignal]
  rw [if_neg hmt, if_neg (by rw [hnb]; exact Bool.false_ne_true),
      if_neg (by rw [hns]; exact Bool.false_ne_true)]

theorem parseSignal_setup_buy (text : String) (mode : Mode)
    (p atr : ℚ) (d : ℕ)
    (hb : containsSub (stripChars (upperChars text.toList)) "BUY WHEN".toList = true) :
    parseSignal text .setup mode p atr d =
      { current_price := p, action := .BUY_SETUP,
        entry := some (extractLevels (stripChars (upperChars text.toList)) .BUY p atr mode d).entry,
        tp := some (extractLevels (stripChars (upperChars text.toList)) .BUY p atr mode d).tp,
        sl := some (extractLevels (stripChars (upperChars text.toList)) .BUY p atr mode d).sl,
        confidence := "AI", raw_signal := String.mk (stripChars text.toList) } := by
  simp only [parseSignal]
  rw [if_pos trivial, if_pos hb]

theorem parseSignal_setup_sell (text : String) (mode : Mode)
    (p atr : ℚ) (d : ℕ)
    (hnb : containsSub (stripChars (upperChars text.toList)) "BUY WHEN".toList = false)
    (hs : containsSub (stripChars (upperChars text.toList)) "SELL WHEN".toList = true) :
    parseSignal text .setup mode p atr d =
      { current_price := p, action := .SELL_SETUP,
        entry := some (extractLevels (stripChars (upperChars text.toList)) .SELL p atr mode d).entry,
        tp := some (extractLevels (stripChars (upperChars text.toList)) .SELL p atr mode d).tp,
        sl := some (extractLevels (stripChars (upperChars text.toList)) .SELL p atr mode d).sl,
        confidence := "AI", raw_signal := String.mk (stripChars text.toList) } := by
  simp only [parseSignal]
  rw [if_pos trivial, if_neg (by rw [hnb]; exact Bool.false_ne_true), if_pos hs]

theorem parseSignal_setup_wait (text : String) (mode : Mode)
    (p atr : ℚ) (d : ℕ)
    (hnb : containsSub (stripChars (upperChars text.toList)) "BUY WHEN".toList = false)
    (hns : containsSub (stripChars (upperChars text.toList)) "SELL WHEN".toList = false) :
    parseSignal text .setup mode p atr d =
      { current_price := p, action := .WAIT,
        entry := none, tp := none, sl := none,
        confidence := "AI", raw_signal := String.mk (stripChars text.toList) } := by
  simp only [parseSignal]
  rw [if_pos trivial, if_neg (by rw [hnb]; exact Bool.false_ne_true),
      if_neg (by rw [hns]; exact Bool.false_ne_true)]

/-! ## Claim theorems -/

/-- C2: the Level Calculator returns entry = currentPrice,
tp = currentPrice + atr·tpMultiple, sl = currentPrice − atr·slMultiple for
long actions and the mirrored levels for short actions, each rounded to
the asset's decimal precision; in particular BUY at 1.10000 with
atr = 0.00100 and multiples 2.5/1.2 on a 5-decimal asset gives
entry = 1.10000, tp = 1.10250, sl = 1.09880. -/
theorem C2_atr_level_formulas :
    (∀ (a : Action) (p atr : ℚ) (mode : Mode) (d : ℕ),
      a = .BUY ∨ a = .BUY_SETUP →
        calculateAtrLevels a p atr mode d =
          { entry := roundTo d p,
            tp := roundTo d (p + atr * mode.tp_atr_multiple),
            sl := roundTo d (p - atr * mode.sl_atr_multiple) }) ∧
    (∀ (a : Action) (p atr : ℚ) (mode : Mode) (d : ℕ),
      a = .SELL ∨ a = .SELL_SETUP →
        calculateAtrLevels a p atr mode d =
          { entry := roundTo d p,
            tp := roundTo d (p - atr * mode.tp_atr_multiple),
            sl := roundTo d (p + atr * mode.sl_atr_multiple) }) ∧
    calculateAtrLevels .BUY (11/10) (1/1000) instantMode 5 =
      { entry := 11/10, tp := 441/400, sl := 2747/2500 } := by
  refine ⟨calculateAtrLevels_long, calculateAtrLevels_short, ?_⟩
  rw [calculateAtrLevels_long .BUY (11/10) (1/1000) instantMode 5 (Or.inl rfl)]
  show Levels.mk (roundTo 5 (11/10)) (roundTo 5 (11/10 + 1/1000 * instantMode.tp_atr_multiple))
      (roundTo 5 (11/10 - 1/1000 * instantMode.sl_atr_multiple)) = _
  rw [show instantMode.tp_atr_multiple = 5/2 from rfl,
      show instantMode.sl_atr_multiple = 6/5 from rfl,
      roundTo_eval 5 (11/10) 110000 (by norm_num) (by norm_num),
      roundTo_eval 5 (11/10 + 1/1000 * (5/2)) 110250 (by norm_num) (by norm_num),
      roundTo_eval 5 (11/10 - 1/1000 * (6/5)) 109880 (by norm_num) (by norm_num)]
  norm_num

/-- Witness for C2 at a concrete short action. -/
theorem C2_atr_level_formulas_witness :
    calculateAtrLevels .SELL 2 1 instantMode 0 =
      { entry := roundTo 0 2,
        tp := roundTo 0 (2 - 1 * instantMode.tp_atr_multiple),
        sl := roundTo 0 (2 + 1 * instantMode.sl_atr_multiple) } :=
  C2_atr_level_formulas.2.1 .SELL 2 1 instantMode 0 (Or.inl rfl)

/-- C1 counterexample: with currentPrice = 1.1 > 0 and
atr = 0.000001 > 0 on a 5-decimal asset in scalping mode, rounding
collapses the three levels to the same price, so the strict ordering
takeProfit > entry > stopLoss fails for a BUY signal. -/
theorem C1_counterexample :
    ((0:ℚ) < 11/10 ∧ (0:ℚ) < 1/1000000) ∧
    (calculateAtrLevels .BUY (11/10) (1/1000000) scalpingMode 5).tp =
      (calculateAtrLevels .BUY (11/10) (1/1000000) scalpingMode 5).entry ∧
    ¬ (calculateAtrLevels .BUY (11/10) (1/1000000) scalpingMode 5).tp >
      (calculateAtrLevels .BUY (11/10) (1/1000000) scalpingMode 5).entry := by
  have h : calculateAtrLevels .BUY (11/10) (1/1000000) scalpingMode 5 =
      { entry := (110000 : ℤ) / 10 ^ 5, tp := (110000 : ℤ) / 10 ^ 5,
        sl := (110000 : ℤ) / 10 ^ 5 } := by
    rw [calculateAtrLevels_long .BUY _ _ _ _ (Or.inl rfl),
        show scalpingMode.tp_atr_multiple = 3/2 from rfl,
        show scalpingMode.sl_atr_multiple = 1 from rfl,
        roundTo_eval 5 (11/10) 110000 (by norm_num) (by norm_num),
        roundTo_eval 5 (11/10 + 1/1000000 * (3/2)) 110000 (by norm_num) (by norm_num),
        roundTo_eval 5 (11/10 - 1/1000000 * 1) 110000 (by norm_num) (by norm_num)]
  rw [h]
  refine ⟨⟨by norm_num, by norm_num⟩, rfl, ?_⟩
  exact lt_irrefl _

/-- C1 (amended): for the ATR-based Level Calculator with positive price,
positive ATR and positive mode multiples, the strict direction-consistent
ordering holds for the unrounded levels, and the non-strict ordering
survives rounding to the asset's decimal precision. -/
theorem C1_ordering_invariant (p atr : ℚ) (mode : Mode) (d : ℕ)
    (hp : 0 < p) (hatr : 0 < atr)
    (htp : 0 < mode.tp_atr_multiple) (hsl : 0 < mode.sl_atr_multiple) :
    (∀ a, a = .BUY ∨ a = .BUY_SETUP →
      p + atr * mode.tp_atr_multiple > p ∧
      p > p - atr * mode.sl_atr_multiple ∧
      (calculateAtrLevels a p atr mode d).sl ≤ (calculateAtrLevels a p atr mode d).entry ∧
      (calculateAtrLevels a p atr mode d).entry ≤ (calculateAtrLevels a p atr mode d).tp) ∧
    (∀ a, a = .SELL ∨ a = .SELL_SETUP →
      p - atr * mode.tp_atr_multiple < p ∧
      p < p + atr * mode.sl_atr_multiple ∧
      (calculateAtrLevels a p atr mode d).tp ≤ (calculateAtrLevels a p atr mode d).entry ∧
      (calculateAtrLevels a p atr mode d).entry ≤ (calculateAtrLevels a p atr mode d).sl) := by
  have htp' : 0 < atr * mode.tp_atr_multiple := mul_pos hatr htp
  have hsl' : 0 < atr * mode.sl_atr_multiple := mul_pos hatr hsl
  constructor
  · intro a ha
    have h1 := atrLevels_long_weak p atr mode d htp'.le hsl'.le
    have he : calculateAtrLevels a p atr mode d = calculateAtrLevels .BUY p atr mode d := by
      rw [calculateAtrLevels_long a p atr mode d ha,
          calculateAtrLevels_long .BUY p atr mode d (Or.inl rfl)]
    rw [he]
    exact ⟨by linarith, by linarith, h1.1, h1.2⟩
  · intro a ha
    have h1 := atrLevels_short_weak p atr mode d htp'.le hsl'.le
    have he : calculateAtrLevels a p atr mode d = calculateAtrLevels .SELL p atr mode d := by
      rw [calculateAtrLevels_short a p atr mode d ha,
          calculateAtrLevels_short .SELL p atr mode d (Or.inl rfl)]
    rw [he]
    exact ⟨by linarith, by linarith, h1.1, h1.2⟩

/-- Witness for C1 (amended) at BUY, price 1.1, atr 0.001, instant mode. -/
theorem C1_ordering_invariant_witness :
    (0:ℚ) < 11/10 ∧ (0:ℚ) < 1/1000 ∧
    ((calculateAtrLevels .BUY (11/10) (1/1000) instantMode 5).sl ≤
      (calculateAtrLevels .BUY (11/10) (1/1000) instantMode 5).entry ∧
     (calculateAtrLevels .BUY (11/10) (1/1000) instantMode 5).entry ≤
      (calculateAtrLevels .BUY (11/10) (1/1000) instantMode 5).tp) :=
  ⟨by norm_num, by norm_num,
    ((C1_ordering_invariant (11/10) (1/1000) instantMode 5 (by norm_num) (by norm_num)
      (by norm_num [instantMode]) (by norm_num [instantMode])).1 .BUY
      (Or.inl rfl)).2.2⟩

/-- C9 counterexample: at atr = 0 the Level Calculator does not fail; it
returns the degenerate levels entry = tp = sl = price, and at a negative
atr a SELL signal gets a take-profit above its entry. -/
theorem C9_counterexample :
    calculateAtrLevels .BUY (11/10) 0 instantMode 5 =
      { entry := 11/10, tp := 11/10, sl := 11/10 } ∧
    (calculateAtrLevels .SELL 2000 (-5) instantMode 2).tp >
      (calculateAtrLevels .SELL 2000 (-5) instantMode 2).entry := by
  constructor
  · rw [calculateAtrLevels_long .BUY _ _ _ _ (Or.inl rfl),
        show instantMode.tp_atr_multiple = 5/2 from rfl,
        show instantMode.sl_atr_multiple = 6/5 from rfl,
        roundTo_eval 5 (11/10) 110000 (by norm_num) (by norm_num),
        roundTo_eval 5 (11/10 + 0 * (5/2)) 110000 (by norm_num) (by norm_num),
        roundTo_eval 5 (11/10 - 0 * (6/5)) 110000 (by norm_num) (by norm_num)]
    norm_num
  · rw [calculateAtrLevels_short .SELL _ _ _ _ (Or.inl rfl),
        show instantMode.tp_atr_multiple = 5/2 from rfl,
        show instantMode.sl_atr_multiple = 6/5 from rfl,
        roundTo_eval 2 (2000 - (-5) * (5/2)) 201250 (by norm_num) (by norm_num),
        roundTo_eval 2 (2000 : ℚ) 200000 (by norm_num) (by norm_num)]
    norm_num

/-- C9 (amended): the Level Calculator performs no validation of atr:
for atr ≤ 0 (and nonnegative mode multiples) it still returns levels,
whose ordering is degenerate or inverted — for long actions
tp ≤ entry ≤ sl, for short actions sl ≤ entry ≤ tp. -/
theorem C9_no_atr_validation (p atr : ℚ) (mode : Mode) (d : ℕ)
    (hatr : atr ≤ 0) (htp : 0 ≤ mode.tp_atr_multiple) (hsl : 0 ≤ mode.sl_atr_multiple) :
    (∀ a, a = .BUY ∨ a = .BUY_SETUP →
      (calculateAtrLevels a p atr mode d).tp ≤ (calculateAtrLevels a p atr mode d).entry ∧
      (calculateAtrLevels a p atr mode d).entry ≤ (calculateAtrLevels a p atr mode d).sl) ∧
    (∀ a, a = .SELL ∨ a = .SELL_SETUP →
      (calculateAtrLevels a p atr mode d).sl ≤ (calculateAtrLevels a p atr mode d).entry ∧
      (calculateAtrLevels a p atr mode d).entry ≤ (calculateAtrLevels a p atr mode d).tp) := by
  have htp' : atr * mode.tp_atr_multiple ≤ 0 := mul_nonpos_of_nonpos_of_nonneg hatr htp
  have hsl' : atr * mode.sl_atr_multiple ≤ 0 := mul_nonpos_of_nonpos_of_nonneg hatr hsl
  constructor
  · intro a ha
    rw [calculateAtrLevels_long a p atr mode d ha]
    exact ⟨roundTo_mono d (by linarith), roundTo_mono d (by linarith)⟩
  · intro a ha
    rw [calculateAtrLevels_short a p atr mode d ha]
    exact ⟨roundTo_mono d (by linarith), roundTo_mono d (by linarith)⟩

/-- Witness for C9 (amended) at atr = 0. -/
theorem C9_no_atr_validation_witness :
    (calculateAtrLevels .BUY (11/10) 0 instantMode 5).tp ≤
      (calculateAtrLevels .BUY (11/10) 0 instantMode 5).entry ∧
    (calculateAtrLevels .BUY (11/10) 0 instantMode 5).entry ≤
      (calculateAtrLevels .BUY (11/10) 0 instantMode 5).sl :=
  (C9_no_atr_validation (11/10) 0 instantMode 5 le_rfl
    (by norm_num [instantMode]) (by norm_num [instantMode])).1 .BUY (Or.inl rfl)

/-- C4: the level-extraction step scans the text for all unsigned decimal
numeric substrings left to right and, when at least three are found,
assigns the first three in order to entry, take-profit and stop-loss,
rounded to the asset's decimal precision, with no validation of their
ordering; on "BUY 1.1050 TP:1.1100 SL:1.1020 - breakout" the parser yields
action=BUY, entry=1.1050, tp=1.1100, sl=1.1020. -/
theorem C4_positional_extraction :
    (∀ (resp : List Char) (a : Action) (p atr : ℚ) (mode : Mode) (d : ℕ)
      (n0 n1 n2 : String) (rest : List String),
      scanNumbers resp = n0 :: n1 :: n2 :: rest →
        extractLevels resp a p atr mode d =
          { entry := roundTo d (parseDec n0),
            tp := roundTo d (parseDec n1),
            sl := roundTo d (parseDec n2) }) ∧
    ((parseSignal "BUY 1.1050 TP:1.1100 SL:1.1020 - breakout" .instant instantMode 1 (1/100) 5).action = .BUY ∧
     (parseSignal "BUY 1.1050 TP:1.1100 SL:1.1020 - breakout" .instant instantMode 1 (1/100) 5).entry = some (221/200) ∧
     (parseSignal "BUY 1.1050 TP:1.1100 SL:1.1020 - breakout" .instant instantMode 1 (1/100) 5).tp = some (111/100) ∧
     (parseSignal "BUY 1.1050 TP:1.1100 SL:1.1020 - breakout" .instant instantMode 1 (1/100) 5).sl = some (551/500)) := by
  have hp1 : parseDec "1.1050" = 221/200 := by
    rw [parseDec_eval "1.1050" 1 1050 4 (by decide) (by decide) (by decide)]
    norm_num
  have hp2 : parseDec "1.1100" = 111/100 := by
    rw [parseDec_eval "1.1100" 1 1100 4 (by decide) (by decide) (by decide)]
    norm_num
  have hp3 : parseDec "1.1020" = 551/500 := by
    rw [parseDec_eval "1.1020" 1 1020 4 (by decide) (by decide) (by decide)]
    norm_num
  have e1 : roundTo 5 (parseDec "1.1050") = 221/200 := by
    rw [hp1, roundTo_eval 5 (221/200) 110500 (by norm_num) (by norm_num)]
    norm_num
  have e2 : roundTo 5 (parseDec "1.1100") = 111/100 := by
    rw [hp2, roundTo_eval 5 (111/100) 111000 (by norm_num) (by norm_num)]
    norm_num
  have e3 : roundTo 5 (parseDec "1.1020") = 551/500 := by
    rw [hp3, roundTo_eval 5 (551/500) 110200 (by norm_num) (by norm_num)]
    norm_num
  refine ⟨extractLevels_of_three, ?_⟩
  rw [parseSignal_nonsetup_buy _ _ _ _ _ _ (by decide) (by decide),
      extractLevels_of_three _ _ _ _ _ _ "1.1050" "1.1100" "1.1020" [] (by decide)]
  exact ⟨rfl, by rw [e1], by rw [e2], by rw [e3]⟩

/-- Witness for C4: the positional assignment applied to scenario C's text. -/
theorem C4_positional_extraction_witness :
    extractLevels "BUY 1.1050 TP:1.1100 SL:1.1020 - breakout".toList .BUY 1 (1/100)
        instantMode 5 =
      { entry := roundTo 5 (parseDec "1.1050"),
        tp := roundTo 5 (parseDec "1.1100"),
        sl := roundTo 5 (parseDec "1.1020") } :=
  C4_positional_extraction.1 _ .BUY 1 (1/100) instantMode 5
    "1.1050" "1.1100" "1.1020" [] (by decide)

/-- C5 counterexample: on "SELL FIRST THEN BUY" the first occurrence of
SELL precedes BUY, so the claimed first-occurrence rule yields SELL, but
the parser checks `'BUY' in response` first and returns BUY. -/
theorem C5_counterexample :
    (parseSignal "SELL FIRST THEN BUY" .instant instantMode 1 1 5).action = .BUY ∧
    firstOccurrenceAction "SELL FIRST THEN BUY" = .SELL ∧
    Action.BUY ≠ .SELL := by
  refine ⟨?_, by decide, by decide⟩
  rw [parseSignal_nonsetup_buy _ _ _ _ _ _ (by decide) (by decide)]

/-- C5 (amended): action classification uppercases and strips the text;
setup mode returns BUY_SETUP when it contains "BUY WHEN", else SELL_SETUP
when it contains "SELL WHEN", else WAIT; non-setup modes return BUY when
it contains "BUY" anywhere, else SELL when it contains "SELL", else WAIT —
containment precedence, not first occurrence.  The setup parser with
explanation applies the same rule to the signal head before the
explanation marker. -/
theorem C5_classification :
    (∀ (text : String) (mode : Mode) (p atr : ℚ) (d : ℕ),
      (parseSignal text .setup mode p atr d).action =
        (if containsSub (stripChars (upperChars text.toList)) "BUY WHEN".toList then Action.BUY_SETUP
         else if containsSub (stripChars (upperChars text.toList)) "SELL WHEN".toList then Action.SELL_SETUP
         else Action.WAIT)) ∧
    (∀ (text : String) (mt : ModeType) (mode : Mode) (p atr : ℚ) (d : ℕ),
      mt ≠ .setup →
      (parseSignal text mt mode p atr d).action =
        (if containsSub (stripChars (upperChars text.toList)) "BUY".toList then Action.BUY
         else if containsSub (stripChars (upperChars text.toList)) "SELL".toList then Action.SELL
         else Action.WAIT)) ∧
    (∀ (text : String) (mode : Mode) (p atr : ℚ) (d : ℕ),
      (parseSetupSignalWithExplanation text mode p atr d).action =
        (if containsSub (stripChars (upperChars (setupSignalPart text))) "BUY WHEN".toList then Action.BUY_SETUP
         else if containsSub (stripChars (upperChars (setupSignalPart text))) "SELL WHEN".toList then Action.SELL_SETUP
         else Action.WAIT)) := by
  refine ⟨?_, ?_, ?_⟩
  · intro text mode p atr d
    simp only [parseSignal]
    rw [if_pos trivial]
    split_ifs <;> rfl
  · intro text mt mode p atr d hmt
    simp only [parseSignal]
    rw [if_neg hmt]
    split_ifs <;> rfl
  · intro text mode p atr d
    simp only [parseSetupSignalWithExplanation]
    split_ifs <;> rfl

/-- Witness for C5 (amended) at a concrete non-setup text. -/
theorem C5_classification_witness :
    (parseSignal "BUY" .instant instantMode 1 1 0).action =
      (if containsSub (stripChars (upperChars "BUY".toList)) "BUY".toList then Action.BUY
       else if containsSub (stripChars (upperChars "BUY".toList)) "SELL".toList then Action.SELL
       else Action.WAIT) :=
  C5_classification.2.1 "BUY" .instant instantMode 1 1 0 (by decide)

/-- C3 counterexample: a low-confluence setup fallback returns a WAIT
signal whose entry is the current price, not null. -/
theorem C3_counterexample :
    (fallbackSignal 0 0 .setup setupMode (11/10) (1/100) 5).action = .WAIT ∧
    (fallbackSignal 0 0 .setup setupMode (11/10) (1/100) 5).entry = some (11/10) := by
  simp only [fallbackSignal]
  rw [if_pos ⟨trivial, by norm_num [setupMode]⟩]
  exact ⟨rfl, rfl⟩

/-- C3 (amended): WAIT ⇔ tp = sl = null holds for parser and fallback
signals, and parser signals additionally have a null entry exactly on
WAIT; but fallback signals always carry a non-null entry (the current
price when no level was computed), so WAIT does not imply a null entry
for them. -/
theorem C3_wait_purity :
    (∀ (text : String) (mt : ModeType) (mode : Mode) (p atr : ℚ) (d : ℕ),
      ((parseSignal text mt mode p atr d).action = .WAIT ↔
        (parseSignal text mt mode p atr d).entry = none ∧
        (parseSignal text mt mode p atr d).tp = none ∧
        (parseSignal text mt mode p atr d).sl = none)) ∧
    (∀ (long short : ℚ) (mt : ModeType) (mode : Mode) (p atr : ℚ) (d : ℕ),
      ((fallbackSignal long short mt mode p atr d).action = .WAIT ↔
        (fallbackSignal long short mt mode p atr d).tp = none ∧
        (fallbackSignal long short mt mode p atr d).sl = none) ∧
      (fallbackSignal long short mt mode p atr d).entry ≠ none) ∧
    (∀ (ls ss : ℕ) (mt : ModeType) (mode : Mode) (p atr : ℚ) (d : ℕ),
      ((fallbackPineSignal ls ss mt mode p atr d).action = .WAIT ↔
        (fallbackPineSignal ls ss mt mode p atr d).tp = none ∧
        (fallbackPineSignal ls ss mt mode p atr d).sl = none) ∧
      (fallbackPineSignal ls ss mt mode p atr d).entry ≠ none) := by
  refine ⟨?_, ?_, ?_⟩
  · intro text mt mode p atr d
    simp only [parseSignal]
    split_ifs <;> simp
  · intro long short mt mode p atr d
    simp only [fallbackSignal]
    split_ifs <;> simp
  · intro ls ss mt mode p atr d
    simp only [fallbackPineSignal]
    split_ifs <;> simp

/-- C7 (P5): in setup mode, whenever max(bullish, bearish) confluence is
below the mode's threshold the fallback signal's action is WAIT, whichever
side is larger. -/
theorem C7_confluence_threshold (long short : ℚ) (mode : Mode) (p atr : ℚ) (d : ℕ)
    (h : max long short < mode.confluence_threshold) :
    (fallbackSignal long short .setup mode p atr d).action = .WAIT := by
  simp only [fallbackSignal]
  rw [if_pos ⟨trivial, h⟩]

/-- Witness for C7: scenario E, bullish 1.5, bearish 1.0, threshold 2.0. -/
theorem C7_confluence_threshold_witness :
    max (3/2 : ℚ) 1 < setupMode.confluence_threshold ∧
    (fallbackSignal (3/2) 1 .setup setupMode (11/10) (1/100) 5).action = .WAIT :=
  ⟨by norm_num [setupMode],
   C7_confluence_threshold (3/2) 1 setupMode (11/10) (1/100) 5 (by norm_num [setupMode])⟩

/-- C8: in the swing-setup fallback's armed BUY branch the swing-based
trigger entry (swing low 1.0995 plus 5-pip buffer = 1.1000 on EURUSD) is
overwritten by the ATR-levels dict update, so the returned entry equals
the rounded current price 1.0999, not the pip-buffered swing level. -/
theorem C8_entry_overwritten :
    (fallbackSwingSetup (113/100) (10995/10000) 1 (10999/10000) (1/1000)
        setupMode 5 5 (1/10000)).action = .BUY_SETUP ∧
    (fallbackSwingSetup (113/100) (10995/10000) 1 (10999/10000) (1/1000)
        setupMode 5 5 (1/10000)).entry = some (10999/10000) ∧
    roundTo 5 ((10995/10000 : ℚ) + 5 * (1/10000)) = 11/10 ∧
    (10999/10000 : ℚ) ≠ 11/10 := by
  have hcond : True ∧ (10999/10000 : ℚ) < 10995/10000 + 5 * (1/10000) :=
    ⟨trivial, by norm_num⟩
  have hlv : calculateAtrLevels .BUY (10999/10000) (1/1000) setupMode 5 =
      { entry := (109990 : ℤ) / 10 ^ 5, tp := (110240 : ℤ) / 10 ^ 5,
        sl := (109870 : ℤ) / 10 ^ 5 } := by
    rw [calculateAtrLevels_long .BUY _ _ _ _ (Or.inl rfl),
        show setupMode.tp_atr_multiple = 5/2 from rfl,
        show setupMode.sl_atr_multiple = 6/5 from rfl,
        roundTo_eval 5 (10999/10000) 109990 (by norm_num) (by norm_num),
        roundTo_eval 5 (10999/10000 + 1/1000 * (5/2)) 110240 (by norm_num) (by norm_num),
        roundTo_eval 5 (10999/10000 - 1/1000 * (6/5)) 109870 (by norm_num) (by norm_num)]
  refine ⟨?_, ?_, ?_, by norm_num⟩
  · simp only [fallbackSwingSetup]
    rw [if_pos hcond]
  · simp only [fallbackSwingSetup]
    rw [if_pos hcond, hlv]
    norm_num
  · rw [roundTo_eval 5 ((10995/10000 : ℚ) + 5 * (1/10000)) 110000 (by norm_num) (by norm_num)]
    norm_num

/-- C10: the multi-timeframe fallback always returns a BUY_SETUP or a
SELL_SETUP — never WAIT — and returns the bullish setup exactly when the
long confluence score is at least the short one (ties, including 0–0, go
bullish). -/
theorem C10_multi_always_setup (dailyBias : String) (h4Structure : ℤ)
    (h4Support h4Resistance : List ℚ) (h1Trend h1Momentum : String)
    (p atr : ℚ) (d : ℕ) :
    ((fallbackMultiTimeframeSignal dailyBias h4Structure h4Support h4Resistance
        h1Trend h1Momentum p atr d).action = .BUY_SETUP ∨
     (fallbackMultiTimeframeSignal dailyBias h4Structure h4Support h4Resistance
        h1Trend h1Momentum p atr d).action = .SELL_SETUP) ∧
    (fallbackMultiTimeframeSignal dailyBias h4Structure h4Support h4Resistance
        h1Trend h1Momentum p atr d).action ≠ .WAIT ∧
    ((fallbackMultiTimeframeSignal dailyBias h4Structure h4Support h4Resistance
        h1Trend h1Momentum p atr d).action = .BUY_SETUP ↔
      (multiConfluence dailyBias h4Structure h1Trend h1Momentum).2 ≤
        (multiConfluence dailyBias h4Structure h1Trend h1Momentum).1) := by
  simp only [fallbackMultiTimeframeSignal]
  by_cases h : (multiConfluence dailyBias h4Structure h1Trend h1Momentum).1 ≥
      (multiConfluence dailyBias h4Structure h1Trend h1Momentum).2
  · rw [if_pos h]
    exact ⟨Or.inl rfl, by simp, ⟨fun _ => h, fun _ => rfl⟩⟩
  · rw [if_neg h]
    refine ⟨Or.inr rfl, by simp, ⟨?_, ?_⟩⟩
    · intro heq
      exact Action.noConfusion heq
    · intro hle
      exact (h hle).elim

/-- C6 counterexample: "WAIT - no clear setup" contains fewer than 3
numeric substrings, yet `parse` returns a Signal with entry, tp and sl all
null (not non-null as claimed); and on "BUY SIGNAL" with a tiny ATR the
fallback-filled levels have tp = entry, so the strict P1 ordering fails. -/
theorem C6_counterexample :
    ((scanNumbers (stripChars (upperChars "WAIT - no clear setup".toList))).length < 3 ∧
     (parseSignal "WAIT - no clear setup" .instant instantMode (11/10) (1/100) 5).action = .WAIT ∧
     (parseSignal "WAIT - no clear setup" .instant instantMode (11/10) (1/100) 5).entry = none ∧
     (parseSignal "WAIT - no clear setup" .instant instantMode (11/10) (1/100) 5).tp = none ∧
     (parseSignal "WAIT - no clear setup" .instant instantMode (11/10) (1/100) 5).sl = none) ∧
    ((scanNumbers (stripChars (upperChars "BUY SIGNAL".toList))).length < 3 ∧
     (parseSignal "BUY SIGNAL" .instant instantMode (11/10) (1/1000000) 5).action = .BUY ∧
     (parseSignal "BUY SIGNAL" .instant instantMode (11/10) (1/1000000) 5).tp =
       (parseSignal "BUY SIGNAL" .instant instantMode (11/10) (1/1000000) 5).entry) := by
  refine ⟨⟨by decide, by decide, by decide, by decide, by decide⟩, by decide, by decide, ?_⟩
  rw [parseSignal_nonsetup_buy _ _ _ _ _ _ (by decide) (by decide),
      extractLevels_of_few _ _ _ _ _ _ (by decide),
      calculateAtrLevels_long .BUY _ _ _ _ (Or.inl rfl),
      show instantMode.tp_atr_multiple = 5/2 from rfl,
      roundTo_eval 5 (11/10 + 1/1000000 * (5/2)) 110000 (by norm_num) (by norm_num),
      roundTo_eval 5 (11/10) 110000 (by norm_num) (by norm_num)]

/-- C6 (amended): for any text whose scanned (uppercased, stripped) form
contains fewer than 3 numeric substrings, whenever the classified action
is not WAIT the parser returns non-null entry/tp/sl filled by the ATR
calculator, satisfying the non-strict direction-consistent ordering; for
WAIT-classified texts all three stay null (see C3).  The embedding is a
total function: no input raises. -/
theorem C6_fallback_totality (text : String) (mt : ModeType) (mode : Mode)
    (p atr : ℚ) (d : ℕ)
    (hn : (scanNumbers (stripChars (upperChars text.toList))).length < 3)
    (hatr : 0 ≤ atr) (htp : 0 ≤ mode.tp_atr_multiple) (hsl : 0 ≤ mode.sl_atr_multiple)
    (hw : (parseSignal text mt mode p atr d).action ≠ .WAIT) :
    ∃ e t l : ℚ,
      (parseSignal text mt mode p atr d).entry = some e ∧
      (parseSignal text mt mode p atr d).tp = some t ∧
      (parseSignal text mt mode p atr d).sl = some l ∧
      (((parseSignal text mt mode p atr d).action = .BUY ∨
        (parseSignal text mt mode p atr d).action = .BUY_SETUP) → l ≤ e ∧ e ≤ t) ∧
      (((parseSignal text mt mode p atr d).action = .SELL ∨
        (parseSignal text mt mode p atr d).action = .SELL_SETUP) → t ≤ e ∧ e ≤ l) := by
  have hlong := atrLevels_long_weak p atr mode d (mul_nonneg hatr htp) (mul_nonneg hatr hsl)
  have hshort := atrLevels_short_weak p atr mode d (mul_nonneg hatr htp) (mul_nonneg hatr hsl)
  have hfew : ∀ a : Action,
      extractLevels (stripChars (upperChars text.toList)) a p atr mode d =
        calculateAtrLevels a p atr mode d :=
    fun a => extractLevels_of_few _ a p atr mode d hn
  by_cases hmt : mt = ModeType.setup
  · subst hmt
    cases hb : containsSub (stripChars (upperChars text.toList)) "BUY WHEN".toList with
    | true =>
      rw [parseSignal_setup_buy text mode p atr d hb, hfew .BUY]
      refine ⟨_, _, _, rfl, rfl, rfl, fun _ => ⟨hlong.1, hlong.2⟩, ?_⟩
      intro hcon
      rcases hcon with h | h <;> exact Action.noConfusion h
    | false =>
      cases hs : containsSub (stripChars (upperChars text.toList)) "SELL WHEN".toList with
      | true =>
        rw [parseSignal_setup_sell text mode p atr d hb hs, hfew .SELL]
        refine ⟨_, _, _, rfl, rfl, rfl, ?_, fun _ => ⟨hshort.1, hshort.2⟩⟩
        intro hcon
        rcases hcon with h | h <;> exact Action.noConfusion h
      | false =>
        rw [parseSignal_setup_wait text mode p atr d hb hs] at hw
        exact absurd rfl hw
  · cases hb : containsSub (stripChars (upperChars text.toList)) "BUY".toList with
    | true =>
      rw [parseSignal_nonsetup_buy text mt mode p atr d hmt hb, hfew .BUY]
      refine ⟨_, _, _, rfl, rfl, rfl, fun _ => ⟨hlong.1, hlong.2⟩, ?_⟩
      intro hcon
      rcases hcon with h | h <;> exact Action.noConfusion h
    | false =>
      cases hs : containsSub (stripChars (upperChars text.toList)) "SELL".toList with
      | true =>
        rw [parseSignal_nonsetup_sell text mt mode p atr d hmt hb hs, hfew .SELL]
        refine ⟨_, _, _, rfl, rfl, rfl, ?_, fun _ => ⟨hshort.1, hshort.2⟩⟩
        intro hcon
        rcases hcon with h | h <;> exact Action.noConfusion h
      | false =>
        rw [parseSignal_nonsetup_wait text mt mode p atr d hmt hb hs] at hw
        exact absurd rfl hw

/-- Witness for C6 (amended) on "BUY SIGNAL" in instant mode. -/
theorem C6_fallback_totality_witness :
    ∃ e t l : ℚ,
      (parseSignal "BUY SIGNAL" .instant instantMode (11/10) (1/100) 5).entry = some e ∧
      (parseSignal "BUY SIGNAL" .instant instantMode (11/10) (1/100) 5).tp = some t ∧
      (parseSignal "BUY SIGNAL" .instant instantMode (11/10) (1/100) 5).sl = some l ∧
      (((parseSignal "BUY SIGNAL" .instant instantMode (11/10) (1/100) 5).action = .BUY ∨
        (parseSignal "BUY SIGNAL" .instant instantMode (11/10) (1/100) 5).action = .BUY_SETUP) →
        l ≤ e ∧ e ≤ t) ∧
      (((parseSignal "BUY SIGNAL" .instant instantMode (11/10) (1/100) 5).action = .SELL ∨
        (parseSignal "BUY SIGNAL" .instant instantMode (11/10) (1/100) 5).action = .SELL_SETUP) →
        t ≤ e ∧ e ≤ l) :=
  C6_fallback_totality "BUY SIGNAL" .instant instantMode (11/10) (1/100) 5
    (by decide) (by norm_num) (by norm_num [instantMode]) (by norm_num [instantMode])
    (by decide)

end Trading
